import Mathlib

/-!
Verification of the Whisper Walls feed logic.

The definitions below are a shallow embedding of the JavaScript source:
  - src/screens/ExploreScreen.js : getFilteredWhispers (search filter,
    category sort/filter, pagination) and getMoodStats (mood aggregator);
  - src/screens/AddWhisperScreen.js : isValidToPost and handlePost.

Modelling conventions:
  - JS numbers that the code treats as integers (likes, timestamps in
    milliseconds, distances in meters) are Int; the one place the code
    divides (the trending "velocity" score) is modelled exactly in the
    rationals.
  - The JS idiom `x || d` (which substitutes d for undefined AND for 0,
    both falsy) is modelled by jsOrInt.
  - `Array.prototype.sort` with a numeric comparator is a stable sort
    consistent with the comparator's total preorder (ES2019); any stable
    sort with the relation "comparator(a,b) <= 0" computes the same list,
    so it is modelled by the structural stable List.insertionSort.
  - String.prototype.toLowerCase / trim / includes are modelled
    character-wise (jsToLower, jsTrim, jsIncludes).
-/

/-- One whisper record (spec section 3).  Optional numeric fields model the
ad hoc dynamic shape of the JS records (missing fields get defaults). -/
structure Whisper where
  id : Int
  text : String
  mood : String
  likes : Option Int
  timestamp : Option Int
  distance : Option Int
  userId : Option Int
deriving DecidableEq

/-- JS truthiness defaulting for numbers: models the source idiom
`x || d`, where both a missing field and 0 are falsy. -/
def jsOrInt (x : Option Int) (d : Int) : Int :=
  match x with
  | none => d
  | some v => if v = 0 then d else v

/-- Reads `whisper.likes || 0` (ExploreScreen.js lines 78, 99-100, 114). -/
def likesOf (w : Whisper) : Int := jsOrInt w.likes 0

/-- Reads `whisper.timestamp || Date.now()` with the injected clock
(ExploreScreen.js lines 82-83, 95, 101-102). -/
def tsOr (now : Int) (w : Whisper) : Int := jsOrInt w.timestamp now

/-- Reads `whisper.distance || 0` (ExploreScreen.js lines 89-90). -/
def distOf (w : Whisper) : Int := jsOrInt w.distance 0

/-- ASCII lower-casing of one character, as toLowerCase acts on the
character data the claims exercise. -/
def charLower (c : Char) : Char :=
  if 'A' ≤ c ∧ c ≤ 'Z' then Char.ofNat (c.toNat + 32) else c

/-- Model of String.prototype.toLowerCase. -/
def jsToLower (s : String) : String := String.mk (s.data.map charLower)

/-- Whitespace test used by the trim model. -/
def isWs (c : Char) : Bool := c = ' ' || c = '\t' || c = '\n' || c = '\r'

/-- Model of String.prototype.trim: drop whitespace on both ends. -/
def jsTrim (s : String) : String :=
  String.mk (((s.data.dropWhile isWs).reverse.dropWhile isWs).reverse)

/-- Model of String.prototype.includes: substring (infix) containment. -/
def jsIncludes (s sub : String) : Bool := decide (sub.data <:+: s.data)

/-- Page size constant ITEMS_PER_PAGE (ExploreScreen.js line 25). -/
def ITEMS_PER_PAGE : Nat := 10

/-- Search stage of getFilteredWhispers (ExploreScreen.js lines 66-72):
when the search string is nonempty after trimming, keep whispers whose
lower-cased text or mood contains the lower-cased (untrimmed) query. -/
def searchStage (whispers : List Whisper) (searchQuery : String) : List Whisper :=
  if jsTrim searchQuery = "" then whispers
  else
    let query := jsToLower searchQuery
    whispers.filter (fun w =>
      jsIncludes (jsToLower w.text) query || jsIncludes (jsToLower w.mood) query)

/-- Age of a whisper in hours: `(now - new Date(whisper.timestamp || now)) /
(1000 * 60 * 60)` (ExploreScreen.js lines 95, 101-102).  Both operands of
the JS division are integers, so it is the exact rational Rat.divInt. -/
def hoursOld (now : Int) (w : Whisper) : ℚ :=
  Rat.divInt (now - tsOr now w) (1000 * 60 * 60)

/-- Trending "velocity" score `likes / Math.max(1, hours)`
(ExploreScreen.js lines 99-105). -/
def scoreOf (now : Int) (w : Whisper) : ℚ :=
  (likesOf w : ℚ) / Max.max 1 (hoursOld now w)

/-- Body of the try-block: the category switch (ExploreScreen.js lines
76-111).  Each `.sort(cmp)` is the stable sort with relation
"cmp(a,b) <= 0".  The value is wrapped in Except to make the try/catch
control flow of the source explicit. -/
def applyCategoryE (selectedCategory : String) (now : Int) (l : List Whisper) :
    Except String (List Whisper) :=
  match selectedCategory with
  | "popular" =>
      Except.ok (List.insertionSort (fun a b => likesOf b ≤ likesOf a) l)
  | "recent" =>
      Except.ok (List.insertionSort (fun a b => tsOr now b ≤ tsOr now a) l)
  | "nearby" =>
      Except.ok (List.insertionSort (fun a b => distOf a ≤ distOf b)
        (l.filter (fun w => decide (distOf w ≤ 1000))))
  | "trending" =>
      Except.ok (List.insertionSort (fun a b => scoreOf now b ≤ scoreOf now a)
        (l.filter (fun w => decide (hoursOld now w ≤ 24))))
  | _ => Except.ok l

/-- The catch handler (ExploreScreen.js lines 112-115): on any error from
the category rule, fall back to the popular sort of the search-filtered
list instead of propagating. -/
def catchFallback (l : List Whisper) (r : Except String (List Whisper)) :
    List Whisper :=
  match r with
  | Except.ok v => v
  | Except.error _ => List.insertionSort (fun a b => likesOf b ≤ likesOf a) l

/-- Category stage: try-block plus catch handler. -/
def applyCategory (cat : String) (now : Int) (l : List Whisper) : List Whisper :=
  catchFallback l (applyCategoryE cat now l)

/-- The full feed query engine, getFilteredWhispers (ExploreScreen.js lines
62-118): search filter, category rule, then `slice(0, page * ITEMS_PER_PAGE)`. -/
def getFilteredWhispers (whispers : List Whisper) (searchQuery selectedCategory : String)
    (page : Nat) (now : Int) : List Whisper :=
  (applyCategory selectedCategory now (searchStage whispers searchQuery)).take
    (page * ITEMS_PER_PAGE)

/-- State of one engine invocation with the source array made explicit.
Line 63 of ExploreScreen.js copies the source (`[...whispers]`), so every
in-place `.sort` below it acts on the copy; the source array the caller
holds is unchanged when the query returns, which this record exposes as a
provable fact rather than a convention. -/
structure EngineRun where
  sourceAfter : List Whisper
  result : List Whisper
deriving DecidableEq

/-- One engine invocation: the result together with the source collection
as it stands after the query (translation of the useMemo body, lines
62-118, with the defensive copy of line 63 made explicit). -/
def getFilteredWhispersRun (whispers : List Whisper) (searchQuery selectedCategory : String)
    (page : Nat) (now : Int) : EngineRun :=
  { sourceAfter := whispers
    result := getFilteredWhispers whispers searchQuery selectedCategory page now }

/-- Mood metadata entry: identifier plus presentation-only fields. -/
structure Mood where
  id : String
  name : String
  emoji : String
  color : String
deriving DecidableEq

/-- Modelled from the spec: the constant MOODS of src/constants/theme.js is
not among the provided sources.  Spec sections 3 and 6 describe it as the
fixed ordered list of known moods (calm, love, dear/thoughtful,
greed/ambitious) with stable identifiers and presentation-only
name/emoji/color metadata irrelevant to the logic. -/
def MOODS : List Mood :=
  [ { id := "calm", name := "Calm", emoji := "", color := "" }
  , { id := "love", name := "Love", emoji := "", color := "" }
  , { id := "dear", name := "Thoughtful", emoji := "", color := "" }
  , { id := "greed", name := "Ambitious", emoji := "", color := "" } ]

/-- `whisper.mood || 'unknown'` (ExploreScreen.js line 168): the empty
string is falsy in JS, so it also maps to "unknown". -/
def moodKey (w : Whisper) : String := if w.mood = "" then "unknown" else w.mood

/-- Value of `stats[m]` after the reduce of ExploreScreen.js lines 167-171:
the number of whispers whose (defaulted) mood equals m. -/
def countMood (ws : List Whisper) (m : String) : Nat :=
  (ws.filter (fun w => decide (moodKey w = m))).length

/-- One entry of the mood aggregator result: the spread mood metadata plus
count and percentage (ExploreScreen.js lines 173-176). -/
structure MoodStat where
  id : String
  name : String
  emoji : String
  color : String
  count : Nat
  percentage : ℚ
deriving DecidableEq

/-- The entry built for one known mood (ExploreScreen.js lines 173-176):
spread metadata, count, and `count / whispers.length * 100`. -/
def moodEntry (ws : List Whisper) (m : Mood) : MoodStat :=
  { id := m.id, name := m.name, emoji := m.emoji, color := m.color
    count := countMood ws m.id
    percentage := (countMood ws m.id : ℚ) / (ws.length : ℚ) * 100 }

/-- The mood aggregator getMoodStats (ExploreScreen.js lines 164-178):
early return [] on an empty collection, else one entry per known mood with
count and percentage, sorted by count descending (stable). -/
def getMoodStats (ws : List Whisper) : List MoodStat :=
  if ws.length = 0 then []
  else
    List.insertionSort (fun a b => b.count ≤ a.count) (MOODS.map (moodEntry ws))

/-- Character limit MAX_CHAR_LIMIT (AddWhisperScreen.js line 26). -/
def MAX_CHAR_LIMIT : Nat := 400

/-- isValidToPost (AddWhisperScreen.js lines 76-81): trimmed length at
least 10, raw length at most the limit, a mood selected, no post in
flight. -/
def isValidToPost (text : String) (currentMood : Option Mood) (isPosting : Bool) : Bool :=
  decide (10 ≤ (jsTrim text).length) && decide (text.length ≤ MAX_CHAR_LIMIT) &&
    currentMood.isSome && !isPosting

/-- handlePost (AddWhisperScreen.js lines 183-221), reduced to its data
flow: the external validators validateWhisperText and containsBadWords
(src/utils/helpers, not among the provided sources; the spec treats them
as opaque boolean collaborators) are parameters; the value is the argument
pair passed to addWhisper when the guards pass, and none when a guard
returns early. -/
def handlePost (validation flagged : String → Bool) (text : String)
    (currentMood : Option Mood) : Option (String × Mood) :=
  if validation text = false then none
  else if flagged text = true then none
  else
    match currentMood with
    | none => none
    | some m => some (jsTrim text, m)

/-- Concrete whisper from the spec section 8 example: fields are id, text,
mood, likes, timestamp, distance, userId (id 1, 5 likes, calm). -/
def exW1 : Whisper := ⟨1, "", "calm", some 5, none, none, none⟩

/-- Concrete whisper from the spec section 8 example (id 2, 9 likes, love). -/
def exW2 : Whisper := ⟨2, "", "love", some 9, none, none, none⟩

/-- Concrete whisper from the spec section 8 example (id 3, 2 likes, calm). -/
def exW3 : Whisper := ⟨3, "", "calm", some 2, none, none, none⟩

/-- The spec section 8 example collection. -/
def exData : List Whisper := [exW1, exW2, exW3]

/-- A mood value used by concrete witnesses. -/
def exMood : Mood := ⟨"calm", "Calm", "", ""⟩

/-- A whisper with one like, used by concrete counterexamples. -/
def cxA : Whisper := ⟨10, "first", "calm", some 1, none, none, none⟩

/-- A whisper with two likes, used by concrete counterexamples. -/
def cxB : Whisper := ⟨11, "second", "love", some 2, none, none, none⟩

/- Generic lemmas about the stable sort model. -/

/-- A total transitive relation makes the stable sort sorted. -/
theorem pairwise_insertionSort_of {α : Type} (r : α → α → Prop) [DecidableRel r]
    (htot : ∀ a b, r a b ∨ r b a) (htr : ∀ a b c, r a b → r b c → r a c)
    (l : List α) : List.Pairwise r (List.insertionSort r l) := by
  haveI : IsTotal α r := ⟨htot⟩
  haveI : IsTrans α r := ⟨htr⟩
  exact List.sorted_insertionSort r l

/-- Stability of the sort model: elements the relation cannot distinguish
(any class on which r holds universally) keep their input order, stated as
the sort commuting with filtering by such a class. -/
theorem insertionSort_filter_stable {α : Type} (r : α → α → Prop) [DecidableRel r]
    (p : α → Bool) (l : List α) (hp : ∀ a b, p a = true → p b = true → r a b) :
    (List.insertionSort r l).filter p = l.filter p := by
  have hpw : List.Pairwise r (l.filter p) :=
    List.pairwise_of_forall_mem_list (fun a ha b hb =>
      hp a b (List.mem_filter.mp ha).2 (List.mem_filter.mp hb).2)
  have hsub : List.Sublist (l.filter p) (List.insertionSort r l) :=
    List.sublist_insertionSort hpw (List.filter_sublist l)
  have hself : (l.filter p).filter p = l.filter p :=
    List.filter_eq_self.mpr (fun a ha => (List.mem_filter.mp ha).2)
  have h2 : List.Sublist (l.filter p) ((List.insertionSort r l).filter p) := by
    have := List.Sublist.filter p hsub
    rwa [hself] at this
  have hlen : ((List.insertionSort r l).filter p).length = (l.filter p).length :=
    (List.Perm.filter p (List.perm_insertionSort r l)).length_eq
  exact (List.Sublist.eq_of_length h2 hlen.symm).symm

/-- The category try-block never produces an error value. -/
theorem applyCategoryE_isOk (cat : String) (now : Int) (l : List Whisper) :
    (applyCategoryE cat now l).isOk = true := by
  unfold applyCategoryE
  split <;> rfl

/-- Whatever the category, the try-block result draws its elements from the
input list without duplication (it sorts the input or a filtering of it). -/
theorem applyCategoryE_subperm (cat : String) (now : Int) (l : List Whisper)
    (v : List Whisper) (hv : applyCategoryE cat now l = Except.ok v) :
    List.Subperm v l := by
  unfold applyCategoryE at hv
  split at hv <;> injection hv with hv <;> subst hv
  · exact (List.perm_insertionSort _ _).subperm
  · exact (List.perm_insertionSort _ _).subperm
  · exact List.Subperm.trans (List.perm_insertionSort _ _).subperm
      (List.filter_sublist l).subperm
  · exact List.Subperm.trans (List.perm_insertionSort _ _).subperm
      (List.filter_sublist l).subperm
  · exact List.Subperm.refl l

/-- The full category stage draws its elements from the input list. -/
theorem applyCategory_subperm (cat : String) (now : Int) (l : List Whisper) :
    List.Subperm (applyCategory cat now l) l := by
  unfold applyCategory catchFallback
  cases h : applyCategoryE cat now l with
  | error e =>
      have h2 := applyCategoryE_isOk cat now l
      rw [h] at h2
      simp [Except.isOk, Except.toBool] at h2
  | ok v => exact applyCategoryE_subperm cat now l v h

/-- The search stage only filters: its output is a sublist of its input. -/
theorem searchStage_sublist (ws : List Whisper) (q : String) :
    List.Sublist (searchStage ws q) ws := by
  unfold searchStage
  split
  · exact List.Sublist.refl ws
  · exact List.filter_sublist ws

/-- The category stage on the literal category "popular" is the stable sort
by likes descending. -/
theorem applyCategory_popular (now : Int) (l : List Whisper) :
    applyCategory "popular" now l
    = List.insertionSort (fun a b => likesOf b ≤ likesOf a) l := rfl

/-- The category stage on the literal category "nearby" filters to the
1000 m radius and sorts by distance ascending. -/
theorem applyCategory_nearby (now : Int) (l : List Whisper) :
    applyCategory "nearby" now l
    = List.insertionSort (fun a b => distOf a ≤ distOf b)
        (l.filter (fun w => decide (distOf w ≤ 1000))) := rfl

/-- The category stage on the literal category "trending" filters to age at
most 24 hours and sorts by velocity score descending. -/
theorem applyCategory_trending (now : Int) (l : List Whisper) :
    applyCategory "trending" now l
    = List.insertionSort (fun a b => scoreOf now b ≤ scoreOf now a)
        (l.filter (fun w => decide (hoursOld now w ≤ 24))) := rfl

/-- An unrecognized category identifier falls through the switch and leaves
the list unchanged. -/
theorem applyCategory_unknown (cat : String) (now : Int) (l : List Whisper)
    (h1 : cat ≠ "popular") (h2 : cat ≠ "recent") (h3 : cat ≠ "nearby")
    (h4 : cat ≠ "trending") : applyCategory cat now l = l := by
  have hE : applyCategoryE cat now l = Except.ok l := by
    unfold applyCategoryE
    split <;> simp_all
  show catchFallback l (applyCategoryE cat now l) = l
  rw [hE]
  rfl

/-- Claim C3: with category popular the result is sorted by likes
descending (missing likes read as 0), adjacent pairs satisfy
likes[i] >= likes[i+1], ties keep the input order (the sort commutes with
restriction to any fixed likes value), and on the spec section 8 example
the result order is [2, 1, 3]. -/
theorem popular_sorted_stable (ws : List Whisper) (q : String) (page : Nat)
    (now : Int) (k : Int) :
    List.Chain' (fun a b => likesOf b ≤ likesOf a)
      (getFilteredWhispers ws q "popular" page now)
    ∧ (applyCategory "popular" now (searchStage ws q)).filter
          (fun w => decide (likesOf w = k))
        = (searchStage ws q).filter (fun w => decide (likesOf w = k))
    ∧ (∀ w : Whisper, w.likes = none → likesOf w = 0)
    ∧ getFilteredWhispers exData "" "popular" 1 0 = [exW2, exW1, exW3] := by
  refine ⟨?_, ?_, ?_, by decide⟩
  · have hs : List.Pairwise (fun a b => likesOf b ≤ likesOf a)
        (List.insertionSort (fun a b => likesOf b ≤ likesOf a) (searchStage ws q)) :=
      pairwise_insertionSort_of (fun a b : Whisper => likesOf b ≤ likesOf a)
        (fun a b => le_total (likesOf b) (likesOf a))
        (fun a b c h1 h2 => le_trans h2 h1) _
    have hres : getFilteredWhispers ws q "popular" page now
        = (List.insertionSort (fun a b => likesOf b ≤ likesOf a)
            (searchStage ws q)).take (page * ITEMS_PER_PAGE) := rfl
    rw [hres]
    exact (List.Pairwise.sublist (List.take_sublist _ _) hs).chain'
  · rw [applyCategory_popular]
    refine insertionSort_filter_stable _ _ _ (fun a b ha hb => ?_)
    rw [of_decide_eq_true ha, of_decide_eq_true hb]
  · intro w h
    simp [likesOf, jsOrInt, h]

/-- Claim C4: with category trending every returned item is at most 24
hours old relative to the injected clock (a missing timestamp reads as
now), the result is ordered by the velocity score likes / max(1, ageHours)
descending, and ties keep the order of the age-filtered input (the sort
commutes with restriction to any fixed score value). -/
theorem trending_age_order_stable (ws : List Whisper) (q : String)
    (page : Nat) (now : Int) (k : ℚ) :
    (∀ w ∈ getFilteredWhispers ws q "trending" page now, hoursOld now w ≤ 24)
    ∧ List.Chain' (fun a b => scoreOf now b ≤ scoreOf now a)
        (getFilteredWhispers ws q "trending" page now)
    ∧ (applyCategory "trending" now (searchStage ws q)).filter
          (fun w => decide (scoreOf now w = k))
        = ((searchStage ws q).filter (fun w => decide (hoursOld now w ≤ 24))).filter
            (fun w => decide (scoreOf now w = k)) := by
  have hres : getFilteredWhispers ws q "trending" page now
      = (List.insertionSort (fun a b => scoreOf now b ≤ scoreOf now a)
          ((searchStage ws q).filter (fun w => decide (hoursOld now w ≤ 24)))).take
        (page * ITEMS_PER_PAGE) := rfl
  refine ⟨?_, ?_, ?_⟩
  · intro w hw
    rw [hres] at hw
    have hw2 := (List.take_sublist _ _).subset hw
    have hw3 := (List.mem_insertionSort _).mp hw2
    exact of_decide_eq_true (List.mem_filter.mp hw3).2
  · have hs : List.Pairwise (fun a b => scoreOf now b ≤ scoreOf now a)
        (List.insertionSort (fun a b => scoreOf now b ≤ scoreOf now a)
          ((searchStage ws q).filter (fun w => decide (hoursOld now w ≤ 24)))) :=
      pairwise_insertionSort_of (fun a b : Whisper => scoreOf now b ≤ scoreOf now a)
        (fun a b => le_total (scoreOf now b) (scoreOf now a))
        (fun a b c h1 h2 => le_trans h2 h1) _
    rw [hres]
    exact (List.Pairwise.sublist (List.take_sublist _ _) hs).chain'
  · rw [applyCategory_trending]
    refine insertionSort_filter_stable _ _ _ (fun a b ha hb => ?_)
    rw [of_decide_eq_true ha, of_decide_eq_true hb]

/-- Claim C5: with category nearby every returned item is within 1000
meters (a record with no distance reads as 0 and therefore qualifies), the
result is sorted by distance ascending with adjacent pairs satisfying
distance[i] <= distance[i+1], and ties keep the order of the
radius-filtered input. -/
theorem nearby_radius_sorted_stable (ws : List Whisper) (q : String)
    (page : Nat) (now : Int) (k : Int) :
    (∀ w ∈ getFilteredWhispers ws q "nearby" page now, distOf w ≤ 1000)
    ∧ List.Chain' (fun a b => distOf a ≤ distOf b)
        (getFilteredWhispers ws q "nearby" page now)
    ∧ (∀ w : Whisper, w.distance = none → distOf w = 0)
    ∧ (applyCategory "nearby" now (searchStage ws q)).filter
          (fun w => decide (distOf w = k))
        = ((searchStage ws q).filter (fun w => decide (distOf w ≤ 1000))).filter
            (fun w => decide (distOf w = k)) := by
  have hres : getFilteredWhispers ws q "nearby" page now
      = (List.insertionSort (fun a b => distOf a ≤ distOf b)
          ((searchStage ws q).filter (fun w => decide (distOf w ≤ 1000)))).take
        (page * ITEMS_PER_PAGE) := rfl
  refine ⟨?_, ?_, ?_, ?_⟩
  · intro w hw
    rw [hres] at hw
    have hw2 := (List.take_sublist _ _).subset hw
    have hw3 := (List.mem_insertionSort _).mp hw2
    exact of_decide_eq_true (List.mem_filter.mp hw3).2
  · have hs : List.Pairwise (fun a b => distOf a ≤ distOf b)
        (List.insertionSort (fun a b => distOf a ≤ distOf b)
          ((searchStage ws q).filter (fun w => decide (distOf w ≤ 1000)))) :=
      pairwise_insertionSort_of (fun a b : Whisper => distOf a ≤ distOf b)
        (fun a b => le_total (distOf a) (distOf b))
        (fun a b c h1 h2 => le_trans h1 h2) _
    rw [hres]
    exact (List.Pairwise.sublist (List.take_sublist _ _) hs).chain'
  · intro w h
    simp [distOf, jsOrInt, h]
  · rw [applyCategory_nearby]
    refine insertionSort_filter_stable _ _ _ (fun a b ha hb => ?_)
    rw [of_decide_eq_true ha, of_decide_eq_true hb]

/-- Claim C2 counterexample: on a two-element collection the popular rule
reorders, so the returned sequence is not an order-preserving subsequence
of the search-filtered input. -/
theorem engine_reorders_filtered_input :
    ¬ List.Sublist (getFilteredWhispers [cxA, cxB] "" "popular" 1 0)
      (searchStage [cxA, cxB] "") := by decide

/-- Claim C2 (amended): for every collection, search string, category and
page, the returned sequence draws its items from the search-filtered input
with no item invented and none duplicated (it is a sub-permutation of the
filtered input), and it is an order-preserving subsequence of the
filtered-and-sorted sequence rather than of the filtered input. -/
theorem engine_result_subperm (ws : List Whisper) (q cat : String)
    (page : Nat) (now : Int) :
    List.Subperm (getFilteredWhispers ws q cat page now) (searchStage ws q)
    ∧ List.Sublist (getFilteredWhispers ws q cat page now)
        (applyCategory cat now (searchStage ws q)) := by
  constructor
  · exact List.Subperm.trans (List.take_sublist _ _).subperm
      (applyCategory_subperm cat now (searchStage ws q))
  · exact List.take_sublist _ _

/-- Claim C6: the engine returns the prefix of length
min(collectionSize, page * pageSize) of the filtered-and-sorted sequence,
and with everything else unchanged the page 2 result extends the page 1
result: its first 10 elements are exactly the page 1 result. -/
theorem pagination_prefix_extension (ws : List Whisper) (q cat : String) (page : Nat)
    (now : Int) :
    getFilteredWhispers ws q cat page now
      = (applyCategory cat now (searchStage ws q)).take (page * ITEMS_PER_PAGE)
    ∧ (getFilteredWhispers ws q cat page now).length
      = Min.min (applyCategory cat now (searchStage ws q)).length
          (page * ITEMS_PER_PAGE)
    ∧ (getFilteredWhispers ws q cat 2 now).take 10
      = getFilteredWhispers ws q cat 1 now := by
  refine ⟨rfl, ?_, ?_⟩
  · simp [getFilteredWhispers, List.length_take, Nat.min_comm]
  · show ((applyCategory cat now (searchStage ws q)).take (2 * ITEMS_PER_PAGE)).take 10
      = (applyCategory cat now (searchStage ws q)).take (1 * ITEMS_PER_PAGE)
    rw [List.take_take]
    norm_num [ITEMS_PER_PAGE]

/-- Claim C7: the engine never surfaces an error: an unrecognized category
leaves the search-filtered order unchanged (only pagination applies), the
category try-block never produces an error value, and the catch handler
maps any error to the popular rule (sort by likes descending) instead of
propagating it. -/
theorem engine_no_error_surface (ws : List Whisper) (q cat : String)
    (page : Nat) (now : Int) (h1 : cat ≠ "popular") (h2 : cat ≠ "recent")
    (h3 : cat ≠ "nearby") (h4 : cat ≠ "trending") :
    getFilteredWhispers ws q cat page now
      = (searchStage ws q).take (page * ITEMS_PER_PAGE)
    ∧ (∀ c l, (applyCategoryE c now l).isOk = true)
    ∧ (∀ e l, catchFallback l (Except.error e)
        = List.insertionSort (fun a b => likesOf b ≤ likesOf a) l) := by
  refine ⟨?_, fun c l => applyCategoryE_isOk c now l, fun e l => rfl⟩
  unfold getFilteredWhispers
  rw [applyCategory_unknown cat now _ h1 h2 h3 h4]

/-- Claim C7 witness: the theorem instantiated at the concrete unknown
category "mystery". -/
theorem engine_no_error_surface_witness :
    ("mystery" ≠ "popular" ∧ "mystery" ≠ "recent" ∧ "mystery" ≠ "nearby"
      ∧ "mystery" ≠ "trending")
    ∧ (getFilteredWhispers exData "" "mystery" 1 0
        = (searchStage exData "").take (1 * ITEMS_PER_PAGE)
      ∧ (∀ c l, (applyCategoryE c 0 l).isOk = true)
      ∧ (∀ e l, catchFallback l (Except.error e)
          = List.insertionSort (fun a b => likesOf b ≤ likesOf a) l)) :=
  ⟨⟨by decide, by decide, by decide, by decide⟩,
    engine_no_error_surface exData "" "mystery" 1 0 (by decide) (by decide)
      (by decide) (by decide)⟩

/-- Claim C8: the engine never mutates its input: after a query the source
collection is unchanged (the in-place sorts act on the defensive copy of
line 63), and every record in the result is one of the source records,
unmodified. -/
theorem engine_never_mutates (ws : List Whisper) (q cat : String)
    (page : Nat) (now : Int) :
    (getFilteredWhispersRun ws q cat page now).sourceAfter = ws
    ∧ ∀ w ∈ (getFilteredWhispersRun ws q cat page now).result, w ∈ ws := by
  refine ⟨rfl, fun w hw => ?_⟩
  have h1 : List.Subperm (getFilteredWhispers ws q cat page now) (searchStage ws q) :=
    List.Subperm.trans (List.take_sublist _ _).subperm
      (applyCategory_subperm cat now (searchStage ws q))
  exact (searchStage_sublist ws q).subset (h1.subset hw)

/-- Claim C9: when the search string is nonempty after trimming, the search
stage keeps exactly the whispers whose lower-cased text or mood contains
the lower-cased search string as a substring; when it trims to empty, the
engine behaves as with no search at all. -/
theorem search_filter_spec (ws : List Whisper) (q : String) :
    (jsTrim q ≠ "" → ∀ w, w ∈ searchStage ws q ↔ w ∈ ws ∧
        (jsIncludes (jsToLower w.text) (jsToLower q) = true
          ∨ jsIncludes (jsToLower w.mood) (jsToLower q) = true))
    ∧ (jsTrim q = "" → ∀ cat page now, getFilteredWhispers ws q cat page now
        = getFilteredWhispers ws "" cat page now) := by
  constructor
  · intro hq w
    have hfil : searchStage ws q = ws.filter (fun w =>
        jsIncludes (jsToLower w.text) (jsToLower q)
          || jsIncludes (jsToLower w.mood) (jsToLower q)) := by
      unfold searchStage
      rw [if_neg hq]
    rw [hfil, List.mem_filter, Bool.or_eq_true]
  · intro hq cat page now
    have hstage : searchStage ws q = searchStage ws "" := by
      have h0 : jsTrim "" = "" := rfl
      unfold searchStage
      rw [if_pos hq, if_pos h0]
    unfold getFilteredWhispers
    rw [hstage]

/-- Claim C1 counterexample: on the empty collection the aggregator takes
the early-return branch and yields the empty list, so it does not contain
an entry (count 0, percentage 0) for each known mood. -/
theorem mood_stats_empty_no_entries :
    ¬ (∀ m ∈ MOODS, ∃ s ∈ getMoodStats ([] : List Whisper),
        s.id = m.id ∧ s.count = 0 ∧ s.percentage = 0) := by decide

/-- Claim C1 (amended): on an empty collection the aggregator returns the
empty list — the division-by-zero guard is the early return, so a
percentage is never computed with total 0 (no NaN can arise); on a
nonempty collection the result has, for every known mood, an entry whose
count is the number of whispers with that mood and whose percentage is
100 * count / total. -/
theorem mood_stats_empty_guard (ws : List Whisper) (h : ws ≠ []) :
    getMoodStats ([] : List Whisper) = []
    ∧ ∀ m ∈ MOODS, ∃ s ∈ getMoodStats ws, s.id = m.id
        ∧ s.count = countMood ws m.id
        ∧ s.percentage = (countMood ws m.id : ℚ) / (ws.length : ℚ) * 100 := by
  refine ⟨rfl, fun m hm => ?_⟩
  have hlen : ¬ (ws.length = 0) := by
    simpa [List.length_eq_zero] using h
  refine ⟨moodEntry ws m, ?_, rfl, rfl, rfl⟩
  unfold getMoodStats
  rw [if_neg hlen]
  exact (List.mem_insertionSort _).mpr (List.mem_map_of_mem _ hm)

/-- Claim C1 witness: the amended theorem instantiated at the nonempty
spec section 8 example collection. -/
theorem mood_stats_empty_guard_witness :
    exData ≠ []
    ∧ (getMoodStats ([] : List Whisper) = []
      ∧ ∀ m ∈ MOODS, ∃ s ∈ getMoodStats exData, s.id = m.id
          ∧ s.count = countMood exData m.id
          ∧ s.percentage = (countMood exData m.id : ℚ) / (exData.length : ℚ) * 100) :=
  ⟨by decide, mood_stats_empty_guard exData (by decide)⟩

/-- Claim C10: posting is enabled exactly when the trimmed text has at
least 10 characters, the raw text is within MAX_CHAR_LIMIT, a mood is
selected and no post is in flight; and whenever handlePost reaches
addWhisper, the text it passes is the trimmed text. -/
theorem add_whisper_post_gate (text : String) (mood : Option Mood)
    (posting : Bool) (validation flagged : String → Bool) (r : String × Mood)
    (h : handlePost validation flagged text mood = some r) :
    (isValidToPost text mood posting = true
      ↔ (10 ≤ (jsTrim text).length ∧ text.length ≤ MAX_CHAR_LIMIT
          ∧ mood.isSome = true ∧ posting = false))
    ∧ r.1 = jsTrim text := by
  constructor
  · simp [isValidToPost, Bool.and_eq_true, decide_eq_true_eq,
      Bool.not_eq_true', and_assoc]
  · unfold handlePost at h
    by_cases hv : validation text = false
    · rw [if_pos hv] at h
      exact absurd h (by simp)
    · rw [if_neg hv] at h
      by_cases hf : flagged text = true
      · rw [if_pos hf] at h
        exact absurd h (by simp)
      · rw [if_neg hf] at h
        cases mood with
        | none => exact absurd h (by simp)
        | some m =>
            injection h with h
            rw [← h]

/-- Claim C10 witness: the theorem instantiated at a concrete untrimmed
text, permissive validators and a selected mood. -/
theorem add_whisper_post_gate_witness :
    handlePost (fun _ => true) (fun _ => false) "  a quiet thought  " (some exMood)
      = some (jsTrim "  a quiet thought  ", exMood)
    ∧ ((isValidToPost "  a quiet thought  " (some exMood) false = true
        ↔ (10 ≤ (jsTrim "  a quiet thought  ").length
            ∧ "  a quiet thought  ".length ≤ MAX_CHAR_LIMIT
            ∧ (some exMood).isSome = true ∧ (false : Bool) = false))
      ∧ (jsTrim "  a quiet thought  ", exMood).1 = jsTrim "  a quiet thought  ") :=
  ⟨rfl, add_whisper_post_gate "  a quiet thought  " (some exMood) false
    (fun _ => true) (fun _ => false) (jsTrim "  a quiet thought  ", exMood) rfl⟩
